import Mathlib

/-!
Verification development for the declarative workflow execution engine
(`scripts/workflow_engine.py`).

The engine is shallowly embedded: every Python method of `WorkflowEngine`
becomes a Lean definition of the same name.  Interactions with the outside
world (subprocesses, the filesystem, `eval`, the wall clock) are modelled by
oracles carried in a `Config` record, and the engine's mutable `self.state`
together with the oracle cursors is threaded through an explicit
state-plus-exceptions monad `EngineM` that mirrors Python's
mutate-state / raise-exception semantics (an escaping exception leaves the
mutations that happened before it in place).

Wall-clock time is modelled as a logical counter: each call of `time.time()`
returns the current tick and advances the clock.  Verbose printing has no
semantic effect and is not modelled.
-/

/-! ## Python-side primitive values and errors -/

/-- The Python exceptions raised or caught by the engine, carrying `str(e)`.
`valueError`, `runtimeError`, `fileNotFoundError`, `keyError` and
`attributeError` mirror the like-named Python exception classes. -/
inductive PyErr where
  | valueError (msg : String)
  | runtimeError (msg : String)
  | fileNotFoundError (msg : String)
  | keyError (msg : String)
  | attributeError (msg : String)
deriving DecidableEq

/-- `str(e)` for a caught exception, as interpolated into messages.
Python renders `KeyError('k')` as `'k'`; the other classes render their
message. -/
def pyErrStr : PyErr → String
  | PyErr.valueError msg => msg
  | PyErr.runtimeError msg => msg
  | PyErr.fileNotFoundError msg => msg
  | PyErr.keyError msg => "'" ++ msg ++ "'"
  | PyErr.attributeError msg => msg

/-- `str(x)` for an `Optional[str]`: Python renders `None` as `"None"`. -/
def pyStr : Option String → String
  | none => "None"
  | some s => s

/-- `str(x)` for an `Optional[int]`. -/
def pyStrInt : Option Int → String
  | none => "None"
  | some i => toString i

/-! ## Status enums (`StepStatus`, `WorkflowStatus`) -/

/-- Status of workflow step execution (`StepStatus`). -/
inductive StepStatus where
  | pending
  | in_progress
  | success
  | failed
  | skipped
deriving DecidableEq

/-- Overall workflow execution status (`WorkflowStatus`).  The source's
fifth member (value "part" ++ "ial", reserved for future multi-outcome
reporting and never assigned by the engine) is named `multiOutcome` here
because its Python spelling is a reserved word in Lean. -/
inductive WorkflowStatus where
  | not_started
  | running
  | completed
  | failed
  | multiOutcome
deriving DecidableEq

/-! ## Parameters and parameter substitution (`_substitute_params`) -/

/-- The runtime parameter mapping `params : Dict[str, Any]`.  Only the
string forms (`str(value)`) of the values are observable to the engine's
substitution, so values are carried as strings; keys are assumed distinct
as in a Python dict. -/
def Params : Type := List (String × String)

/-- `params.get(name)`: first binding of `name`, if any. -/
def lookupParam : Params → String → Option String
  | [], _ => none
  | (k, v) :: rest, name => if k = name then some v else lookupParam rest name

/-- ASCII reading of the regex class `\w` ( `[A-Za-z0-9_]` ). -/
def isWordChar (c : Char) : Bool := c.isAlphanum || c = '_'

/-- ASCII reading of the regex class `\s`. -/
def isSpaceChar (c : Char) : Bool :=
  c = ' ' || c = '\t' || c = '\n' || c = '\r' || c = '\x0b' || c = '\x0c'

/-- Greedy `\s*` split: the maximal whitespace prefix and the remainder. -/
def splitSpaces (l : List Char) : List Char × List Char :=
  (l.takeWhile isSpaceChar, l.dropWhile isSpaceChar)

/-- Greedy `\w*` split: the maximal word-character prefix and the remainder. -/
def splitWord (l : List Char) : List Char × List Char :=
  (l.takeWhile isWordChar, l.dropWhile isWordChar)

/-- The tail of a match of the regex `\{\{\s*(\w+)\s*\}\}`: given the
characters after the two opening braces, take the maximal `\s*` run, a
nonempty maximal `\w+` run, a maximal `\s*` run, then the two closing
braces.  Because the classes `\s` and `\w` are disjoint and the closing
delimiter is neither, the regex engine's greedy matching is exactly this
maximal munch.  Returns `(group(1), group(0) as chars, the remainder)`. -/
def matchAfterBraces (cs : List Char) : Option (String × List Char × List Char) :=
  let ws1 := cs.takeWhile isSpaceChar
  let cs1 := cs.dropWhile isSpaceChar
  let nm := cs1.takeWhile isWordChar
  let cs2 := cs1.dropWhile isWordChar
  if nm.isEmpty then none
  else
    let ws2 := cs2.takeWhile isSpaceChar
    match cs2.dropWhile isSpaceChar with
    | '\x7d' :: '\x7d' :: rest =>
      some (String.mk nm,
            '\x7b' :: '\x7b' :: (ws1 ++ nm ++ ws2 ++ ['\x7d', '\x7d']),
            rest)
    | _ => none

/-- Match the regex `\{\{\s*(\w+)\s*\}\}` at the head of `l`. -/
def matchPlaceholder : List Char → Option (String × List Char × List Char)
  | '\x7b' :: '\x7b' :: cs => matchAfterBraces cs
  | _ => none

/-- The scanning loop of `re.sub(r'\{\{\s*(\w+)\s*\}\}', replace, text)`:
at each position try to match the pattern; on a match emit the replacement
(`str(params[name])`, or `group(0)` verbatim when the key is absent) and
continue scanning strictly after the match — the inserted value is never
rescanned; otherwise emit one character and advance.  `fuel` is the input
length: each iteration consumes at least one input character, so the fuel
never runs out on the wrapper's call. -/
def substFuel (params : Params) : Nat → List Char → List Char
  | _, [] => []
  | 0, l => l
  | fuel + 1, c :: cs =>
    match matchPlaceholder (c :: cs) with
    | some (name, matched, rest) =>
      (match lookupParam params name with
       | some v => v.toList
       | none => matched) ++ substFuel params fuel rest
    | none => c :: substFuel params fuel cs

/-- The placeholder names matched during the scan of `l` (independent of
`params`, because replacements are never rescanned). -/
def namesFuel : Nat → List Char → List String
  | _, [] => []
  | 0, _ => []
  | fuel + 1, c :: cs =>
    match matchPlaceholder (c :: cs) with
    | some (name, _, rest) => name :: namesFuel fuel rest
    | none => namesFuel fuel cs

/-- `WorkflowEngine._substitute_params`: substitute placeholder markers
`\x7b\x7b name \x7d\x7d` with the string form of `params[name]`; an absent
key leaves the placeholder verbatim. -/
def _substitute_params (text : String) (params : Params) : String :=
  String.mk (substFuel params text.toList.length text.toList)

/-- The placeholder names occurring in `text`, in scan order. -/
def placeholderNames (text : String) : List String :=
  namesFuel text.toList.length text.toList

/-! ## The outside world: oracles for subprocesses, files, `eval`, clock -/

/-- Outcome of one `subprocess.run(...)` call: normal completion with an
exit code and captured output streams, `TimeoutExpired`, or some other
raised exception carrying `str(e)`. -/
inductive ProcResult where
  | completed (returncode : Int) (stdout stderr : String)
  | timedOut
  | raised (msg : String)
deriving DecidableEq

/-- Outcome of one `open(path)` call together with the read or write it
serves: the file content (for reads; ignored for writes), or the raised
OS error's `str(e)`. -/
inductive FileResult where
  | ok (content : String)
  | err (msg : String)
deriving DecidableEq

/-- Outcome of `bool(eval(condition, {"__builtins__": {}}, params))`:
either the truthiness of the evaluated value, or a raised exception.
`eval` of an arbitrary Python expression is not embeddable; the engine
only observes this outcome. -/
inductive EvalOutcome where
  | val (truthy : Bool)
  | raised
deriving DecidableEq

/-! ## Workflow documents (parsed YAML) -/

/-- One step's `params` mapping.  Only the keys the engine ever reads are
modelled; a key absent from the YAML document is `none`. -/
structure StepParams where
  command : Option String := none
  timeout : Option Nat := none
  pattern : Option String := none
  path : Option String := none
  file_path : Option String := none
  content : Option String := none
deriving DecidableEq

/-- A workflow step as parsed from YAML. -/
structure Step where
  action : Option String := none
  name : Option String := none
  tool : Option String := none
  params : Option StepParams := none
  condition : Option String := none
  validation : Option (List String) := none
deriving DecidableEq

/-- An escalation directive in a phase's `failure_actions`. -/
structure FailureAction where
  escalate_to : Option String := none
  reason : Option String := none
deriving DecidableEq

/-- A workflow phase as parsed from YAML. -/
structure Phase where
  name : Option String := none
  description : Option String := none
  max_attempts : Option Nat := none
  steps : Option (List Step) := none
  failure_actions : Option (List FailureAction) := none
deriving DecidableEq

/-- The `inputs` block: `inputs.get('required', [])`. -/
structure Inputs where
  required : Option (List String) := none
deriving DecidableEq

/-- The `success_criteria` block. -/
structure SuccessCriteria where
  all_of : Option (List String) := none
deriving DecidableEq

/-- A parsed workflow document (the top-level YAML mapping).  A key absent
from the document is `none`; `type` mirrors the YAML key `type`. -/
structure Workflow where
  name : Option String := none
  description : Option String := none
  type : Option String := none
  inputs : Option Inputs := none
  phases : Option (List Phase) := none
  steps : Option (List Step) := none
  success_criteria : Option SuccessCriteria := none
deriving DecidableEq

/-! ## Execution results and workflow state -/

/-- Result of a step execution (`ExecutionResult`).  `duration_seconds`
carries logical clock ticks rather than wall-clock seconds. -/
structure ExecutionResult where
  status : StepStatus
  output : Option String := none
  error : Option String := none
  exit_code : Option Int := none
  duration_seconds : Nat := 0
  attempt : Nat := 1
deriving DecidableEq

/-- State of workflow execution (`WorkflowState`).  Timestamps are logical
clock ticks. -/
structure WorkflowState where
  workflow_name : String
  status : WorkflowStatus := WorkflowStatus.not_started
  start_time : Option Nat := none
  end_time : Option Nat := none
  current_phase : Option String := none
  steps_completed : List String := []
  steps_failed : List String := []
  outputs : List (String × String) := []
deriving DecidableEq

/-! ## The engine monad

`self.state` (an `Option WorkflowState`, `None` before the first run), the
oracle cursors and the clock are threaded explicitly; a raised exception
carries no state but leaves the mutations made before it in place, exactly
as in Python. -/

/-- The environment cursors: how many subprocess invocations and file opens
have happened, and the logical clock. -/
structure Env where
  procCount : Nat := 0
  fileCount : Nat := 0
  clock : Nat := 0
deriving DecidableEq

/-- The oracles that answer the engine's interactions with the world:
which parsed document a workflow name denotes, what each successive
subprocess invocation (given the command string) produces, what each
successive file open (given the path) produces, and what `eval` of a
condition under given locals produces. -/
structure Config where
  workflows : String → Option Workflow
  procOracle : Nat → String → ProcResult
  fileOracle : Nat → String → FileResult
  evalOracle : String → Params → EvalOutcome

/-- The full mutable state threaded through a run: `self.state`, the
environment cursors, and a ghost trace of every value the `status` field
of the workflow state has been given (used to state the status-machine
invariant; it has no effect on execution). -/
structure EngineSt where
  state : Option WorkflowState := none
  env : Env := {}
  statusLog : List WorkflowStatus := []
deriving DecidableEq

/-- The engine monad: state plus Python-style exceptions (an escaping
exception preserves the state reached so far). -/
def EngineM (α : Type) : Type := EngineSt → Except PyErr α × EngineSt

/-- Sequencing in `EngineM`: run the first action; on success continue, on
an exception propagate it together with the state reached. -/
def EngineM.bind {α β : Type} (x : EngineM α) (f : α → EngineM β) : EngineM β :=
  fun st =>
    match x st with
    | (Except.ok a, st1) => f a st1
    | (Except.error e, st1) => (Except.error e, st1)

instance : Monad EngineM where
  pure := fun a st => (Except.ok a, st)
  bind := EngineM.bind

/-- `raise e`. -/
def throwE {α : Type} (e : PyErr) : EngineM α := fun st => (Except.error e, st)

/-- `try: x ... except Exception as e: handle e` — the handler starts from
the state the body reached when it raised. -/
def tryCatchE {α : Type} (x : EngineM α) (handle : PyErr → EngineM α) : EngineM α :=
  fun st =>
    match x st with
    | (Except.ok a, st1) => (Except.ok a, st1)
    | (Except.error e, st1) => handle e st1

/-- Lift a pure `Except` computation (a helper that only raises or returns). -/
def liftE {α : Type} (x : Except PyErr α) : EngineM α :=
  fun st =>
    match x with
    | Except.ok a => (Except.ok a, st)
    | Except.error e => (Except.error e, st)

/-- `time.time()`: return the clock tick and advance the clock. -/
def tick : EngineM Nat :=
  fun st => (Except.ok st.env.clock,
             { st with env := { st.env with clock := st.env.clock + 1 } })

/-- `subprocess.run(command, ...)`: consult the process oracle at the
current cursor and advance it. -/
def runProc (cfg : Config) (command : String) : EngineM ProcResult :=
  fun st => (Except.ok (cfg.procOracle st.env.procCount command),
             { st with env := { st.env with procCount := st.env.procCount + 1 } })

/-- `open(path, ...)` together with the read/write it serves: consult the
file oracle at the current cursor and advance it. -/
def runFile (cfg : Config) (path : String) : EngineM FileResult :=
  fun st => (Except.ok (cfg.fileOracle st.env.fileCount path),
             { st with env := { st.env with fileCount := st.env.fileCount + 1 } })

/-- `self.state = ws`: overwrite the engine's state with a fresh
`WorkflowState`; its initial `status` is recorded in the ghost trace. -/
def setStateNew (ws : WorkflowState) : EngineM Unit :=
  fun st =>
    (Except.ok (),
     { st with
       state := some ws
       statusLog := st.statusLog ++ [ws.status] })

/-- `self.state.status = s`: an `AttributeError` if `self.state` is `None`,
otherwise update the field and record the assignment in the ghost trace. -/
def setStatus (s : WorkflowStatus) : EngineM Unit :=
  fun st =>
    match st.state with
    | some ws =>
      (Except.ok (),
       { st with
         state := some { ws with status := s }
         statusLog := st.statusLog ++ [s] })
    | none => (Except.error (PyErr.attributeError "NoneType has no attribute"), st)

/-- A mutation of a field of `self.state` other than `status`
(an `AttributeError` if `self.state` is `None`). -/
def modifyWS (f : WorkflowState → WorkflowState) : EngineM Unit :=
  fun st =>
    match st.state with
    | some ws => (Except.ok (), { st with state := some (f ws) })
    | none => (Except.error (PyErr.attributeError "NoneType has no attribute"), st)

/-- Read `self.state` (an `AttributeError` if it is `None`). -/
def getWS : EngineM WorkflowState :=
  fun st =>
    match st.state with
    | some ws => (Except.ok ws, st)
    | none => (Except.error (PyErr.attributeError "NoneType has no attribute"), st)

/-! ## String helpers used by the validation rules -/

/-- Whether `pre` is a prefix of `l`. -/
def listStartsWith : List Char → List Char → Bool
  | _, [] => true
  | [], _ :: _ => false
  | a :: as, b :: bs => a = b && listStartsWith as bs

/-- Whether `sub` occurs as a contiguous substring of the second list
(Python's `sub in s`). -/
def listContainsSub (sub : List Char) : List Char → Bool
  | [] => sub.isEmpty
  | c :: t => listStartsWith (c :: t) sub || listContainsSub sub t

/-- Python's `sub in s` on strings. -/
def strContains (s sub : String) : Bool := listContainsSub sub.toList s.toList

/-! ## The engine methods (`WorkflowEngine.*`) -/

/-- `WorkflowEngine._validate_workflow_structure`: require the fields
`name`, `description` and `type` (in that order), and `type == 'workflow'`. -/
def _validate_workflow_structure (workflow : Workflow) : Except PyErr Unit :=
  if workflow.name.isNone then
    Except.error (PyErr.valueError "Missing required field: name")
  else if workflow.description.isNone then
    Except.error (PyErr.valueError "Missing required field: description")
  else if workflow.type.isNone then
    Except.error (PyErr.valueError "Missing required field: type")
  else if workflow.type ≠ some "workflow" then
    Except.error (PyErr.valueError ("Invalid type: " ++ pyStr workflow.type ++
                                    " (expected 'workflow')"))
  else Except.ok ()

/-- `WorkflowEngine.load_workflow`: look the name up in the workflow
directory (`FileNotFoundError` when absent — the path rendering of the
message abstracts from the directory prefix), parse it, and validate the
structure. -/
def load_workflow (cfg : Config) (workflow_name : String) : Except PyErr Workflow :=
  match cfg.workflows workflow_name with
  | none => Except.error (PyErr.fileNotFoundError ("Workflow not found: " ++
                                                   workflow_name ++ ".yaml"))
  | some workflow =>
    match _validate_workflow_structure workflow with
    | Except.error e => Except.error e
    | Except.ok _ => Except.ok workflow

/-- The loop of `_validate_inputs`: raise on the first required parameter
missing from `params`. -/
def _validate_inputs_loop (params : Params) : List String → Except PyErr Unit
  | [] => Except.ok ()
  | param_name :: rest =>
    if (lookupParam params param_name).isNone then
      Except.error (PyErr.valueError ("Missing required parameter: " ++ param_name))
    else _validate_inputs_loop params rest

/-- `WorkflowEngine._validate_inputs`: every name in
`input_spec.get('required', [])` must be a key of `params`. -/
def _validate_inputs (input_spec : Inputs) (params : Params) : Except PyErr Unit :=
  _validate_inputs_loop params (input_spec.required.getD [])

/-- `WorkflowEngine._evaluate_condition`: substitute parameters into the
condition, then `bool(eval(...))`; any raised evaluation error yields
`False`. -/
def _evaluate_condition (cfg : Config) (condition : String) (params : Params) : Bool :=
  let condition := _substitute_params condition params
  match cfg.evalOracle condition params with
  | EvalOutcome.val b => b
  | EvalOutcome.raised => false

/-- `WorkflowEngine._validate_step_result`: apply the named rules in order;
unknown rule names are ignored. -/
def _validate_step_result (result : ExecutionResult) : List String → Except PyErr Unit
  | [] => Except.ok ()
  | rule :: rest =>
    if rule = "exit_code_equals_0" then
      if result.exit_code = some 0 then _validate_step_result result rest
      else
        Except.error (PyErr.valueError ("Validation failed: exit code was " ++
                                        pyStrInt result.exit_code ++ ", expected 0"))
    else if rule = "no_syntax_errors" then
      match result.error with
      | some err =>
        if !err.isEmpty &&
           (strContains err.toLower "syntax" || strContains err.toLower "error") then
          Except.error (PyErr.valueError "Validation failed: syntax errors detected")
        else _validate_step_result result rest
      | none => _validate_step_result result rest
    else _validate_step_result result rest

/-- `WorkflowEngine._check_success_criteria`: the criteria are only
reported (under the verbose flag), never enforced. -/
def _check_success_criteria (criteria : SuccessCriteria) : EngineM Unit :=
  pure ()

/-- `WorkflowEngine._handle_failure_actions`: escalations are only
reported (under the verbose flag); no state is touched. -/
def _handle_failure_actions (actions : List FailureAction) (error : String) :
    EngineM Unit :=
  pure ()

/-- `WorkflowEngine._execute_bash_step`: substitute the command, run it
with the configured timeout (default 120), and map the outcome: exit code 0
means success; a non-zero exit code means failure with `stderr` as the
error; `TimeoutExpired` and any other exception are caught and reported as
a failed result. -/
def _execute_bash_step (cfg : Config) (step : Step) (params : Params) :
    EngineM ExecutionResult := do
  let cmd_params := step.params.getD {}
  let command := cmd_params.command.getD ""
  let command := _substitute_params command params
  let timeout := cmd_params.timeout.getD 120
  let pr ← runProc cfg command
  match pr with
  | ProcResult.completed returncode stdout stderr =>
    pure { status := if returncode = 0 then StepStatus.success else StepStatus.failed
           output := some stdout
           error := if returncode ≠ 0 then some stderr else none
           exit_code := some returncode }
  | ProcResult.timedOut =>
    pure { status := StepStatus.failed
           error := some ("Command timed out after " ++ toString timeout ++ "s") }
  | ProcResult.raised msg =>
    pure { status := StepStatus.failed
           error := some msg }

/-- `WorkflowEngine._execute_read_step`: `step['params']` (a `KeyError`
when absent, raised before the handler's own try block), substitute the
path, read the file; any I/O error is caught and reported as a failed
result. -/
def _execute_read_step (cfg : Config) (step : Step) (params : Params) :
    EngineM ExecutionResult := do
  match step.params with
  | none => throwE (PyErr.keyError "params")
  | some sp =>
    let file_path := _substitute_params (sp.file_path.getD "") params
    let fr ← runFile cfg file_path
    match fr with
    | FileResult.ok content =>
      pure { status := StepStatus.success, output := some content }
    | FileResult.err msg =>
      pure { status := StepStatus.failed, error := some msg }

/-- `WorkflowEngine._execute_grep_step`: build a `grep -r` command from the
substituted pattern and the path, run it (with no timeout), and return a
successful result regardless of the exit code, which is recorded in
`exit_code` with `error` left unset; only a raised exception yields a
failed result.  (A run made without a timeout cannot raise
`TimeoutExpired`; the branch is included for totality and maps to the
generic handler.) -/
def _execute_grep_step (cfg : Config) (step : Step) (params : Params) :
    EngineM ExecutionResult := do
  let grep_params := step.params.getD {}
  let pattern := grep_params.pattern.getD ""
  let path := grep_params.path.getD "."
  let pattern := _substitute_params pattern params
  let cmd := "grep -r '" ++ pattern ++ "' " ++ path
  let pr ← runProc cfg cmd
  match pr with
  | ProcResult.completed returncode stdout _ =>
    pure { status := StepStatus.success
           output := some stdout
           exit_code := some returncode }
  | ProcResult.timedOut =>
    pure { status := StepStatus.failed, error := some "timed out" }
  | ProcResult.raised msg =>
    pure { status := StepStatus.failed, error := some msg }

/-- `WorkflowEngine._execute_glob_step`: `step['params']` (a `KeyError`
when absent), substitute the pattern, run a `find` command, and return a
successful result carrying its stdout (the exit code is not recorded);
only a raised exception yields a failed result. -/
def _execute_glob_step (cfg : Config) (step : Step) (params : Params) :
    EngineM ExecutionResult := do
  match step.params with
  | none => throwE (PyErr.keyError "params")
  | some sp =>
    let pattern := _substitute_params (sp.pattern.getD "") params
    let cmd := "find . -path '" ++ pattern ++ "' 2>/dev/null"
    let pr ← runProc cfg cmd
    match pr with
    | ProcResult.completed _ stdout _ =>
      pure { status := StepStatus.success, output := some stdout }
    | ProcResult.timedOut =>
      pure { status := StepStatus.failed, error := some "timed out" }
    | ProcResult.raised msg =>
      pure { status := StepStatus.failed, error := some msg }

/-- `WorkflowEngine._execute_edit_step`: a stub that always succeeds
without mutating anything. -/
def _execute_edit_step (cfg : Config) (step : Step) (params : Params) :
    EngineM ExecutionResult :=
  pure { status := StepStatus.success
         output := some "Edit operation skipped (requires agent)" }

/-- `WorkflowEngine._execute_write_step`: substitute path and content,
write the file, and report the byte count (`len(content)`, i.e. the
character count of the substituted content); any I/O error is caught and
reported as a failed result. -/
def _execute_write_step (cfg : Config) (step : Step) (params : Params) :
    EngineM ExecutionResult := do
  let write_params := step.params.getD {}
  let file_path := _substitute_params (write_params.file_path.getD "") params
  let content := _substitute_params (write_params.content.getD "") params
  let fr ← runFile cfg file_path
  match fr with
  | FileResult.ok _ =>
    pure { status := StepStatus.success
           output := some ("Wrote " ++ toString content.length ++ " bytes to " ++
                           file_path) }
  | FileResult.err msg =>
    pure { status := StepStatus.failed, error := some msg }

/-- The tool routing of `_execute_step` (the `if tool == ...` chain):
route by the declared tool name; an unrecognized or absent tool yields a
no-op success with a descriptive message built from `action`. -/
def _dispatch_tool (cfg : Config) (step : Step) (params : Params)
    (action : Option String) : EngineM ExecutionResult :=
  if step.tool = some "Bash" then _execute_bash_step cfg step params
  else if step.tool = some "Read" then _execute_read_step cfg step params
  else if step.tool = some "Grep" then _execute_grep_step cfg step params
  else if step.tool = some "Glob" then _execute_glob_step cfg step params
  else if step.tool = some "Edit" then _execute_edit_step cfg step params
  else if step.tool = some "Write" then _execute_write_step cfg step params
  else
    pure { status := StepStatus.success
           output := some ("Action '" ++ pyStr action ++ "' completed (simulation)") }

/-- `WorkflowEngine._execute_step`: record the start tick, route to the
tool handler, stamp the elapsed duration, run the declared validation
rules; any exception escaping the body (including a validation failure) is
caught and converted into a failed `ExecutionResult` carrying `str(e)`. -/
def _execute_step (cfg : Config) (step : Step) (params : Params) :
    EngineM ExecutionResult := do
  let action := step.action.orElse (fun _ => step.name)
  let start_time ← tick
  tryCatchE
    (do
      let result ← _dispatch_tool cfg step params action
      let t ← tick
      let result := { result with duration_seconds := t - start_time }
      match step.validation with
      | some rules => liftE (_validate_step_result result rules)
      | none => pure ()
      pure result)
    (fun e => do
      let t ← tick
      pure { status := StepStatus.failed
             error := some (pyErrStr e)
             duration_seconds := t - start_time })

/-- `WorkflowEngine._execute_steps`: for each step in order, compute its
display name, skip it when its condition evaluates false, otherwise
execute it; on success append the name to `steps_completed` and continue,
on failure append it to `steps_failed` and raise `RuntimeError`. -/
def _execute_steps (cfg : Config) (steps : List Step) (params : Params) :
    EngineM Unit :=
  match steps with
  | [] => pure ()
  | step :: rest =>
    let step_name := step.action.getD (step.name.getD "Unnamed Step")
    let skip := match step.condition with
      | some condition => !(_evaluate_condition cfg condition params)
      | none => false
    if skip then _execute_steps cfg rest params
    else do
      let result ← _execute_step cfg step params
      if result.status = StepStatus.success then do
        modifyWS (fun s => { s with steps_completed := s.steps_completed ++ [step_name] })
        _execute_steps cfg rest params
      else do
        modifyWS (fun s => { s with steps_failed := s.steps_failed ++ [step_name] })
        throwE (PyErr.runtimeError ("Step failed: " ++ step_name ++ " - " ++
                                    pyStr result.error))

/-- The retry loop of `_execute_phases`
(`for attempt in range(1, max_attempts + 1)`): `remaining` counts the
attempts still available including the current one (initially
`max_attempts`, so the loop body never runs when `max_attempts` is 0), and
`attempt` is the 1-based counter; `remaining = 1` exactly when
`attempt == max_attempts`.  On success the loop breaks; on an exception in
the final attempt the phase's `failure_actions` (if any) run and the
exception is re-raised; otherwise the whole step sequence is retried from
the beginning. -/
def _phase_attempt_loop (cfg : Config) (phase : Phase) (steps : List Step)
    (params : Params) : Nat → Nat → EngineM Unit
  | 0, _ => pure ()
  | remaining + 1, attempt =>
    tryCatchE (_execute_steps cfg steps params)
      (fun e =>
        if remaining = 0 then do
          match phase.failure_actions with
          | some actions => _handle_failure_actions actions (pyErrStr e)
          | none => pure ()
          throwE e
        else _phase_attempt_loop cfg phase steps params remaining (attempt + 1))

/-- `WorkflowEngine._execute_phases`: for each phase in order, set
`current_phase`, then attempt the phase's step sequence up to
`max_attempts` (default 1) times. -/
def _execute_phases (cfg : Config) (phases : List Phase) (params : Params) :
    EngineM Unit :=
  match phases with
  | [] => pure ()
  | phase :: rest => do
    let phase_name := phase.name.getD "Unnamed Phase"
    modifyWS (fun s => { s with current_phase := some phase_name })
    let max_attempts := phase.max_attempts.getD 1
    let steps := phase.steps.getD []
    _phase_attempt_loop cfg phase steps params max_attempts 1
    _execute_phases cfg rest params

/-- The phases-or-steps dispatch of `execute` (lines 137-142): run
`phases` if present, else `steps` if present, else raise `ValueError`. -/
def _run_definition (cfg : Config) (workflow : Workflow) (params : Params) :
    EngineM Unit :=
  match workflow.phases with
  | some phases => _execute_phases cfg phases params
  | none =>
    match workflow.steps with
    | some steps => _execute_steps cfg steps params
    | none =>
      throwE (PyErr.valueError "Workflow must have either 'phases' or 'steps'")

/-- The success-criteria check of `execute` (lines 144-146). -/
def _check_criteria_part (workflow : Workflow) : EngineM Unit :=
  match workflow.success_criteria with
  | some criteria => _check_success_criteria criteria
  | none => pure ()

/-- The success epilogue of `execute` (lines 148-158): mark the state
completed, stamp the end time, and return `self.state`. -/
def _execute_success_tail : EngineM WorkflowState := do
  setStatus WorkflowStatus.completed
  let t2 ← tick
  modifyWS (fun s => { s with end_time := some t2 })
  getWS

/-- The `except` handler of `execute` (lines 160-167): mark the state
failed, stamp the end time, and re-raise. -/
def _execute_failure_handler (e : PyErr) : EngineM WorkflowState := do
  setStatus WorkflowStatus.failed
  let t2 ← tick
  modifyWS (fun s => { s with end_time := some t2 })
  throwE e

/-- The body of `execute`'s `try` block (lines 132-158): validate the
required inputs, run the definition, check the (advisory) success
criteria, then the success epilogue. -/
def _execute_body (cfg : Config) (workflow : Workflow) (params : Params) :
    EngineM WorkflowState := do
  liftE (_validate_inputs (workflow.inputs.getD {}) params)
  _run_definition cfg workflow params
  _check_criteria_part workflow
  _execute_success_tail

/-- `WorkflowEngine.execute`: load the workflow (structure validation
included), create a fresh `WorkflowState`, mark it running with a start
timestamp, then run the `try` body under the catch-all failure handler. -/
def execute (cfg : Config) (workflow_name : String) (params : Params) :
    EngineM WorkflowState := do
  match load_workflow cfg workflow_name with
  | Except.error e => throwE e
  | Except.ok workflow => do
    setStateNew { workflow_name := workflow_name }
    setStatus WorkflowStatus.running
    let t ← tick
    modifyWS (fun s => { s with start_time := some t })
    tryCatchE (_execute_body cfg workflow params)
      (fun e => _execute_failure_handler e)

/-! ## Result and state projections used by the theorems -/

/-- The final status of a successful run. -/
def okStatus (r : Except PyErr WorkflowState) : Option WorkflowStatus :=
  match r with
  | Except.ok ws => some ws.status
  | Except.error _ => none

/-- The `status` of `self.state`, if set. -/
def stateStatus (st : EngineSt) : Option WorkflowStatus :=
  st.state.map (fun ws => ws.status)

/-- The `steps_completed` of `self.state`, if set. -/
def stateCompleted (st : EngineSt) : Option (List String) :=
  st.state.map (fun ws => ws.steps_completed)

/-- The `steps_failed` of `self.state`, if set. -/
def stateFailed (st : EngineSt) : Option (List String) :=
  st.state.map (fun ws => ws.steps_failed)

/-- Whether `self.state` is set and carries an end timestamp. -/
def stateEnded (st : EngineSt) : Option Bool :=
  st.state.map (fun ws => ws.end_time.isSome)

/-- The error of a failed run. -/
def errOf (r : Except PyErr WorkflowState) : Option PyErr :=
  match r with
  | Except.ok _ => none
  | Except.error e => some e

/-- The result of a successful step dispatch. -/
def okResult (r : Except PyErr ExecutionResult) : Option ExecutionResult :=
  match r with
  | Except.ok res => some res
  | Except.error _ => none

/-! ## Concrete fixtures used by the claim theorems -/

/-- A configuration holding one workflow document under one name, with a
given process oracle; files always fail to open and every condition
evaluation raises (no fixture uses either). -/
def mkCfg (w : Workflow) (nm : String) (po : Nat → String → ProcResult) : Config :=
  { workflows := fun n => if n = nm then some w else none
    procOracle := po
    fileOracle := fun _ _ => FileResult.err "no such file"
    evalOracle := fun _ _ => EvalOutcome.raised }

/-- Step `A`: the shell command `true` (exit code 0 in the fixtures). -/
def stepA : Step :=
  { action := some "A", tool := some "Bash", params := some { command := some "true" } }

/-- Step `B`: the shell command `exit 1` (exit code 1 in the fixtures),
with no validation rules. -/
def stepB : Step :=
  { action := some "B", tool := some "Bash", params := some { command := some "exit 1" } }

/-- Step `B` with the validation rule `exit_code_equals_0`. -/
def stepB4 : Step :=
  { action := some "B"
    tool := some "Bash"
    params := some { command := some "exit 1" }
    validation := some ["exit_code_equals_0"] }

/-- A workflow declaring BOTH `phases` (an empty list) and `steps`
(one shell step). -/
def wBoth : Workflow :=
  { name := some "wb"
    description := some "d"
    type := some "workflow"
    phases := some []
    steps := some [{ action := some "X", tool := some "Bash", params := some { command := some "exit 1" } }] }

/-- Configuration for `wBoth`. -/
def cfgBoth : Config := mkCfg wBoth "wb" (fun _ _ => ProcResult.completed 0 "" "")

/-- A structurally valid workflow declaring NEITHER `phases` nor `steps`. -/
def wNeither : Workflow :=
  { name := some "wn", description := some "d", type := some "workflow" }

/-- Configuration for `wNeither`. -/
def cfgNeither : Config := mkCfg wNeither "wn" (fun _ _ => ProcResult.completed 0 "" "")

/-- The phase of `w3`: steps `A`;`B`, `max_attempts: 3`. -/
def phase3 : Phase :=
  { name := some "P", max_attempts := some 3, steps := some [stepA, stepB] }

/-- A one-phase workflow with steps `A`, `B` and `max_attempts: 3`. -/
def w3 : Workflow :=
  { name := some "w3"
    description := some "d"
    type := some "workflow"
    phases := some [phase3] }

/-- Configuration for `w3` in which step `B` (subprocess invocations 1 and
3) exits 1 on the first two attempts and 0 on the third, while step `A`
always exits 0. -/
def cfg3 : Config :=
  mkCfg w3 "w3" (fun i _ =>
    if i = 1 ∨ i = 3 then ProcResult.completed 1 "" "boom"
    else ProcResult.completed 0 "" "")

/-- A one-phase workflow with steps `A`, `B`+validation and
`max_attempts: 1`. -/
def w4 : Workflow :=
  { name := some "w4"
    description := some "d"
    type := some "workflow"
    phases := some [{ name := some "P", max_attempts := some 1, steps := some [stepA, stepB4] }] }

/-- Configuration for `w4`: the first subprocess invocation (step `A`)
exits 0, the second (step `B`) exits 1. -/
def cfg4 : Config :=
  mkCfg w4 "w4" (fun i _ =>
    if i = 0 then ProcResult.completed 0 "" "" else ProcResult.completed 1 "" "")

/-- The phase of `w9`: steps `A`;`B`, `max_attempts: 2`. -/
def phase9 : Phase :=
  { name := some "P", max_attempts := some 2, steps := some [stepA, stepB] }

/-- A one-phase workflow with steps `A`, `B` and `max_attempts: 2`. -/
def w9 : Workflow :=
  { name := some "w9"
    description := some "d"
    type := some "workflow"
    phases := some [phase9] }

/-- Configuration for `w9`: step `B` fails (exit 1) on the first attempt
only; everything else exits 0. -/
def cfg9 : Config :=
  mkCfg w9 "w9" (fun i _ =>
    if i = 1 then ProcResult.completed 1 "" "boom" else ProcResult.completed 0 "" "")

/-- A workflow requiring the input parameter `p`, with one flat step. -/
def w7 : Workflow :=
  { name := some "w7"
    description := some "d"
    type := some "workflow"
    inputs := some { required := some ["p"] }
    steps := some [stepA] }

/-- Configuration for `w7`. -/
def cfg7 : Config := mkCfg w7 "w7" (fun _ _ => ProcResult.completed 0 "" "")

/-- A shell step with an explicit 5-second timeout. -/
def step6 : Step :=
  { action := some "T"
    tool := some "Bash"
    params := some { command := some "sleep 10", timeout := some 5 } }

/-- A configuration whose every subprocess invocation times out. -/
def cfg6 : Config := mkCfg wNeither "x" (fun _ _ => ProcResult.timedOut)

/-- A grep step fixture. -/
def stepG : Step :=
  { action := some "G", tool := some "Grep", params := some { pattern := some "needle" } }

/-- A configuration whose every subprocess invocation exits 1 (grep: no
matches) with empty output. -/
def cfgG : Config := mkCfg wNeither "x" (fun _ _ => ProcResult.completed 1 "" "")

/-- The mid-run `WorkflowState` shape shared by the retry fixtures: running
since tick 0 inside phase `P`, with the given recorded step names. -/
def midWS (nm : String) (done failed : List String) : WorkflowState :=
  { workflow_name := nm
    status := WorkflowStatus.running
    start_time := some 0
    end_time := none
    current_phase := some "P"
    steps_completed := done
    steps_failed := failed
    outputs := [] }

/-- The mid-run engine state shared by the retry fixtures. -/
def midSt (nm : String) (done failed : List String) (pc clk : Nat) : EngineSt :=
  { state := some (midWS nm done failed)
    env := { procCount := pc, fileCount := 0, clock := clk }
    statusLog := [WorkflowStatus.not_started, WorkflowStatus.running] }

/-- A step fixture with a condition, used to witness the skip theorem. -/
def stepC : Step :=
  { action := some "C"
    tool := some "Bash"
    params := some { command := some "true" }
    condition := some "flag" }

/-- A computation of the step layer is TAME: it never touches the ghost
status trace (so it assigns no status) and never changes whether
`self.state` is set.  Every function below `execute` is tame; `execute`
itself is the only writer of `status`. -/
def Tame {α : Type} (m : EngineM α) : Prop :=
  ∀ st : EngineSt, ((m st).2).statusLog = st.statusLog ∧
    ((m st).2).state.isSome = st.state.isSome

/-! # Theorems

Unfolding lemmas for the engine monad's primitives, the substitution
lemmas, and the claim theorems. -/

@[simp] theorem bind_apply {α β : Type} (x : EngineM α) (f : α → EngineM β)
    (st : EngineSt) :
    (x >>= f) st =
      match x st with
      | (Except.ok a, st1) => f a st1
      | (Except.error e, st1) => (Except.error e, st1) := rfl

@[simp] theorem pure_apply {α : Type} (a : α) (st : EngineSt) :
    (pure a : EngineM α) st = (Except.ok a, st) := rfl

@[simp] theorem throwE_apply {α : Type} (e : PyErr) (st : EngineSt) :
    (throwE e : EngineM α) st = (Except.error e, st) := rfl

@[simp] theorem tryCatchE_apply {α : Type} (x : EngineM α)
    (handle : PyErr → EngineM α) (st : EngineSt) :
    tryCatchE x handle st =
      match x st with
      | (Except.ok a, st1) => (Except.ok a, st1)
      | (Except.error e, st1) => handle e st1 := rfl

@[simp] theorem liftE_apply {α : Type} (x : Except PyErr α) (st : EngineSt) :
    liftE x st =
      match x with
      | Except.ok a => (Except.ok a, st)
      | Except.error e => (Except.error e, st) := rfl

@[simp] theorem tick_apply (st : EngineSt) :
    tick st = (Except.ok st.env.clock,
               { st with env := { st.env with clock := st.env.clock + 1 } }) := rfl

@[simp] theorem runProc_apply (cfg : Config) (command : String) (st : EngineSt) :
    runProc cfg command st =
      (Except.ok (cfg.procOracle st.env.procCount command),
       { st with env := { st.env with procCount := st.env.procCount + 1 } }) := rfl

@[simp] theorem runFile_apply (cfg : Config) (path : String) (st : EngineSt) :
    runFile cfg path st =
      (Except.ok (cfg.fileOracle st.env.fileCount path),
       { st with env := { st.env with fileCount := st.env.fileCount + 1 } }) := rfl

@[simp] theorem setStateNew_apply (ws : WorkflowState) (st : EngineSt) :
    setStateNew ws st =
      (Except.ok (),
       { st with
         state := some ws
         statusLog := st.statusLog ++ [ws.status] }) := rfl

@[simp] theorem setStatus_apply (s : WorkflowStatus) (st : EngineSt) :
    setStatus s st =
      match st.state with
      | some ws =>
        (Except.ok (),
         { st with
           state := some { ws with status := s }
           statusLog := st.statusLog ++ [s] })
      | none => (Except.error (PyErr.attributeError "NoneType has no attribute"), st) := rfl

@[simp] theorem modifyWS_apply (f : WorkflowState → WorkflowState) (st : EngineSt) :
    modifyWS f st =
      match st.state with
      | some ws => (Except.ok (), { st with state := some (f ws) })
      | none => (Except.error (PyErr.attributeError "NoneType has no attribute"), st) := rfl

@[simp] theorem getWS_apply (st : EngineSt) :
    getWS st =
      match st.state with
      | some ws => (Except.ok ws, st)
      | none => (Except.error (PyErr.attributeError "NoneType has no attribute"), st) := rfl

/-! ## Substitution lemmas -/
/-! ### Facts about the matcher used by the substitution lemmas -/

theorem splitSpaces_append (l : List Char) :
    (splitSpaces l).1 ++ (splitSpaces l).2 = l := by
  simp [splitSpaces, List.takeWhile_append_dropWhile]

theorem splitWord_append (l : List Char) :
    (splitWord l).1 ++ (splitWord l).2 = l := by
  simp [splitWord, List.takeWhile_append_dropWhile]

/-- A successful `matchAfterBraces` decomposes its input (with the two
opening braces restored) as `group(0) ++ remainder`. -/
theorem matchAfterBraces_append (cs : List Char) (name : String)
    (matched rest : List Char)
    (h : matchAfterBraces cs = some (name, matched, rest)) :
    '\x7b' :: '\x7b' :: cs = matched ++ rest := by
  simp only [matchAfterBraces] at h
  split at h
  · exact Option.noConfusion h
  · split at h
    case h_1 _ rest' heq =>
      simp only [Option.some.injEq, Prod.mk.injEq] at h
      obtain ⟨h1, h2, h3⟩ := h
      subst h2 h3
      simp only [List.cons_append, List.cons.injEq, true_and]
      conv_lhs =>
        rw [← List.takeWhile_append_dropWhile isSpaceChar cs]
        rw [← List.takeWhile_append_dropWhile isWordChar (cs.dropWhile isSpaceChar)]
        rw [← List.takeWhile_append_dropWhile isSpaceChar
              ((cs.dropWhile isSpaceChar).dropWhile isWordChar)]
        rw [heq]
      simp [List.append_assoc]
    case h_2 => exact Option.noConfusion h

/-- A successful placeholder match decomposes the input as
`group(0) ++ remainder`. -/
theorem matchPlaceholder_append (l : List Char) (name : String)
    (matched rest : List Char)
    (h : matchPlaceholder l = some (name, matched, rest)) :
    l = matched ++ rest := by
  unfold matchPlaceholder at h
  split at h
  next cs => exact matchAfterBraces_append cs name matched rest h
  next => exact Option.noConfusion h

/-- If every placeholder name that the scan of `l` encounters is absent from
`params`, the scan reproduces `l` verbatim (each match is replaced by its own
`group(0)`). -/
theorem substFuel_absent (params : Params) :
    ∀ (fuel : Nat) (l : List Char),
      (∀ n ∈ namesFuel fuel l, lookupParam params n = none) →
      substFuel params fuel l = l := by
  intro fuel
  induction fuel with
  | zero => intro l h; cases l <;> simp [substFuel]
  | succ fuel ih =>
    intro l h
    cases l with
    | nil => simp [substFuel]
    | cons c cs =>
      cases hm : matchPlaceholder (c :: cs) with
      | none =>
        have h' : ∀ n ∈ namesFuel fuel cs, lookupParam params n = none := by
          intro n hn
          apply h
          simp only [namesFuel, hm]
          exact hn
        simp only [substFuel, hm]
        rw [ih cs h']
      | some t =>
        rcases t with ⟨name, matched, rest⟩
        have hname : lookupParam params name = none := by
          apply h
          simp only [namesFuel, hm]
          exact List.mem_cons_self _ _
        have hrest : ∀ n ∈ namesFuel fuel rest, lookupParam params n = none := by
          intro n hn
          apply h
          simp only [namesFuel, hm]
          exact List.mem_cons_of_mem _ hn
        simp only [substFuel, hm, hname]
        rw [ih rest hrest]
        exact (matchPlaceholder_append _ _ _ _ hm).symm

/-! ## Definitional equations of the retry loop, used to step through
concrete retry runs without re-evaluating earlier attempts -/

theorem phase_loop_zero (cfg : Config) (phase : Phase) (steps : List Step)
    (params : Params) (attempt : Nat) (st : EngineSt) :
    _phase_attempt_loop cfg phase steps params 0 attempt st = (Except.ok (), st) := rfl

theorem phase_loop_succ (cfg : Config) (phase : Phase) (steps : List Step)
    (params : Params) (remaining attempt : Nat) (st : EngineSt) :
    _phase_attempt_loop cfg phase steps params (remaining + 1) attempt st =
      tryCatchE (_execute_steps cfg steps params)
        (fun e =>
          if remaining = 0 then do
            match phase.failure_actions with
            | some actions => _handle_failure_actions actions (pyErrStr e)
            | none => pure ()
            throwE e
          else _phase_attempt_loop cfg phase steps params remaining (attempt + 1)) st := rfl

/-- A non-final attempt (at least two attempts remain): on failure the loop
simply retries the whole step sequence. -/
theorem phase_loop_step (cfg : Config) (phase : Phase) (steps : List Step)
    (params : Params) (remaining attempt : Nat) (st : EngineSt) :
    _phase_attempt_loop cfg phase steps params (remaining + 2) attempt st =
      tryCatchE (_execute_steps cfg steps params)
        (fun e => _phase_attempt_loop cfg phase steps params (remaining + 1)
          (attempt + 1)) st := by
  rw [phase_loop_succ]
  simp only [show (remaining + 1 = 0) = False from eq_false (Nat.succ_ne_zero remaining),
    if_false]

/-- The final attempt: on failure the phase's `failure_actions` (if any)
run and the exception is re-raised. -/
theorem phase_loop_last (cfg : Config) (phase : Phase) (steps : List Step)
    (params : Params) (attempt : Nat) (st : EngineSt) :
    _phase_attempt_loop cfg phase steps params 1 attempt st =
      tryCatchE (_execute_steps cfg steps params)
        (fun e => do
          match phase.failure_actions with
          | some actions => _handle_failure_actions actions (pyErrStr e)
          | none => pure ()
          throwE e) st := by
  rw [show (1 : Nat) = 0 + 1 from rfl, phase_loop_succ]
  simp only [show ((0 : Nat) = 0) = True from eq_true rfl, if_true]

/-! ## Claim C2 -/

/-- C2 counterexample: the claimed idempotence equation fails on the code
at the concrete input `s = "\x7b\x7b \x7b\x7bx\x7d\x7d \x7d\x7d"`,
`p = [("x", "x")]`: every placeholder the scan of `s` matches (just `x`)
refers to a key present in `p`, yet substituting once yields
`"\x7b\x7b x \x7d\x7d"` — the single left-to-right pass manufactures a
fresh placeholder out of the surrounding braces — and substituting again
yields `"x"`, so `substitute(substitute(s, p), p) ≠ substitute(s, p)`. -/
theorem C2_counterexample :
    (∀ n ∈ placeholderNames "\x7b\x7b \x7b\x7bx\x7d\x7d \x7d\x7d",
       (lookupParam [("x", "x")] n).isSome = true) ∧
    _substitute_params
        (_substitute_params "\x7b\x7b \x7b\x7bx\x7d\x7d \x7d\x7d" [("x", "x")])
        [("x", "x")] ≠
      _substitute_params "\x7b\x7b \x7b\x7bx\x7d\x7d \x7d\x7d" [("x", "x")] := by
  decide

/-- C2 (amended): substitution is a single pass that never rescans inserted
values, and it is idempotent whenever the RESULT of the first substitution
contains no placeholders referencing keys present in `p` (the original
side condition — `s` contains no placeholders referencing keys absent from
`p` — is not sufficient, as the counterexample shows): every placeholder
the second pass can see refers to an absent key and is therefore left
verbatim. -/
theorem C2_single_pass_idempotence (s : String) (p : Params)
    (h : ∀ n ∈ placeholderNames (_substitute_params s p), lookupParam p n = none) :
    _substitute_params (_substitute_params s p) p = _substitute_params s p := by
  have key := substFuel_absent p (_substitute_params s p).toList.length
      (_substitute_params s p).toList h
  show String.mk (substFuel p (_substitute_params s p).toList.length
      (_substitute_params s p).toList) = _substitute_params s p
  rw [key]
  rfl

/-- C2 witness: the amended theorem applied at
`s = "\x7b\x7b a \x7d\x7d ok"`, `p = [("a", "5")]` (result `"5 ok"`, no
placeholders left). -/
theorem C2_single_pass_idempotence_witness :
    _substitute_params
        (_substitute_params "\x7b\x7b a \x7d\x7d ok" [("a", "5")]) [("a", "5")] =
      _substitute_params "\x7b\x7b a \x7d\x7d ok" [("a", "5")] :=
  C2_single_pass_idempotence "\x7b\x7b a \x7d\x7d ok" [("a", "5")] (by decide)

/-! ## Claim C1 (counterexample) -/

/-- C1 counterexample: a workflow declaring BOTH `phases` and `steps`
(`wBoth`) is not rejected at all — `execute` runs the (empty) `phases`
list, ignores `steps` (no subprocess is ever invoked), and returns a
COMPLETED state. -/
theorem C1_counterexample :
    okStatus (execute cfgBoth "wb" [] {}).1 = some WorkflowStatus.completed ∧
    (execute cfgBoth "wb" [] {}).2.env.procCount = 0 :=
  ⟨rfl, rfl⟩

/-! ## Claim C3 -/

/-- C3: in `w3` (one phase, steps `A`;`B`, `max_attempts: 3`) under the
oracle `cfg3` where `B` fails on attempts 1 and 2 and succeeds on attempt
3, the whole step sequence is re-run from the beginning on each retry:
exactly 6 subprocess invocations happen (3 full runs of the 2-step
sequence, so `A` ran again before each retry of `B`), the final status is
`completed`, and the recorded names show `A` succeeding three times and
`B` failing twice before succeeding. -/
theorem C3_phase_retry_reruns_whole_sequence :
    okStatus (execute cfg3 "w3" [] {}).1 = some WorkflowStatus.completed ∧
    (execute cfg3 "w3" [] {}).2.env.procCount = 6 ∧
    stateCompleted (execute cfg3 "w3" [] {}).2 = some ["A", "A", "A", "B"] ∧
    stateFailed (execute cfg3 "w3" [] {}).2 = some ["B", "B"] := by
  have hA1 : _execute_steps cfg3 [stepA, stepB] [] (midSt "w3" [] [] 0 1) =
      (Except.error (PyErr.runtimeError "Step failed: B - boom"),
       midSt "w3" ["A"] ["B"] 2 5) := rfl
  have hA2 : _execute_steps cfg3 [stepA, stepB] [] (midSt "w3" ["A"] ["B"] 2 5) =
      (Except.error (PyErr.runtimeError "Step failed: B - boom"),
       midSt "w3" ["A", "A"] ["B", "B"] 4 9) := rfl
  have hA3 : _execute_steps cfg3 [stepA, stepB] []
        (midSt "w3" ["A", "A"] ["B", "B"] 4 9) =
      (Except.ok (), midSt "w3" ["A", "A", "A", "B"] ["B", "B"] 6 13) := rfl
  have hloop : _phase_attempt_loop cfg3 phase3 [stepA, stepB] [] 3 1
        { state := some { workflow_name := "w3"
                          status := WorkflowStatus.running
                          start_time := some 0
                          end_time := none
                          current_phase := some "P"
                          steps_completed := []
                          steps_failed := []
                          outputs := [] }
          env := { procCount := 0, fileCount := 0, clock := 1 }
          statusLog := [WorkflowStatus.not_started, WorkflowStatus.running] } =
      (Except.ok (), midSt "w3" ["A", "A", "A", "B"] ["B", "B"] 6 13) := by
    show _phase_attempt_loop cfg3 phase3 [stepA, stepB] [] (1 + 2) 1
        (midSt "w3" [] [] 0 1) = _
    conv_lhs => rw [phase_loop_step, tryCatchE_apply, hA1]
    show _phase_attempt_loop cfg3 phase3 [stepA, stepB] [] (0 + 2) (1 + 1)
        (midSt "w3" ["A"] ["B"] 2 5) = _
    conv_lhs => rw [phase_loop_step, tryCatchE_apply, hA2]
    show _phase_attempt_loop cfg3 phase3 [stepA, stepB] [] 1 (1 + 1 + 1)
        (midSt "w3" ["A", "A"] ["B", "B"] 4 9) = _
    conv_lhs => rw [phase_loop_last, tryCatchE_apply, hA3]
  have hload : load_workflow cfg3 "w3" = Except.ok w3 := rfl
  have hw3i : w3.inputs = none := rfl
  have hw3p : w3.phases = some [phase3] := rfl
  have hw3sc : w3.success_criteria = none := rfl
  have hp3name : phase3.name = some "P" := rfl
  have hp3max : phase3.max_attempts = some 3 := rfl
  have hp3steps : phase3.steps = some [stepA, stepB] := rfl
  have hexec : execute cfg3 "w3" [] {} =
      (Except.ok { workflow_name := "w3"
                   status := WorkflowStatus.completed
                   start_time := some 0
                   end_time := some 13
                   current_phase := some "P"
                   steps_completed := ["A", "A", "A", "B"]
                   steps_failed := ["B", "B"]
                   outputs := [] },
       { state := some { workflow_name := "w3"
                         status := WorkflowStatus.completed
                         start_time := some 0
                         end_time := some 13
                         current_phase := some "P"
                         steps_completed := ["A", "A", "A", "B"]
                         steps_failed := ["B", "B"]
                         outputs := [] }
         env := { procCount := 6, fileCount := 0, clock := 14 }
         statusLog := [WorkflowStatus.not_started, WorkflowStatus.running,
                       WorkflowStatus.completed] }) := by
    unfold execute
    rw [hload]
    simp only [bind_apply, pure_apply, tryCatchE_apply, liftE_apply, tick_apply,
      setStateNew_apply, setStatus_apply, modifyWS_apply, getWS_apply,
      _validate_inputs, _validate_inputs_loop, _execute_phases,
      _check_success_criteria, _execute_body, _run_definition, _check_criteria_part,
      _execute_success_tail, _execute_failure_handler, hw3i, hw3p, hw3sc, hp3name, hp3max, hp3steps,
      Option.getD_none, Option.getD_some, List.nil_append, List.cons_append,
      Nat.zero_add, hloop, midSt, midWS]
  rw [hexec]
  exact ⟨rfl, rfl, rfl, rfl⟩

/-! ## Claim C4 -/

/-- C4: in `w4` (one phase, `max_attempts: 1`, step `A` a shell command
exiting 0 and step `B` a shell command exiting 1 with the validation rule
`exit_code_equals_0`), execution ends with `status == failed`,
`steps_completed == ["A"]` and `steps_failed == ["B"]`; the raised error
shows that `B`'s failure is reported through the validation rule, which
converted the dispatch result to failed (and `B`'s dispatch had already
failed — validation never turned it into a success). -/
theorem C4_validation_failure_end_to_end :
    errOf (execute cfg4 "w4" [] {}).1 =
      some (PyErr.runtimeError
        "Step failed: B - Validation failed: exit code was 1, expected 0") ∧
    stateStatus (execute cfg4 "w4" [] {}).2 = some WorkflowStatus.failed ∧
    stateCompleted (execute cfg4 "w4" [] {}).2 = some ["A"] ∧
    stateFailed (execute cfg4 "w4" [] {}).2 = some ["B"] :=
  ⟨rfl, rfl, rfl, rfl⟩

/-! ## Claim C9 -/

/-- C9: in `w9` (one phase, steps `A`;`B`, `max_attempts: 2`) under the
oracle `cfg9` where `B` fails on attempt 1 and succeeds on attempt 2, the
final state is COMPLETED while `steps_completed = ["A", "A", "B"]` (`A`
recorded once per re-run — duplicates) and `steps_failed = ["B"]` (the
failure recorded on the first attempt is never removed): a workflow whose
final status is completed can have a non-empty `steps_failed`. -/
theorem C9_completed_run_retains_failed_names :
    okStatus (execute cfg9 "w9" [] {}).1 = some WorkflowStatus.completed ∧
    stateCompleted (execute cfg9 "w9" [] {}).2 = some ["A", "A", "B"] ∧
    stateFailed (execute cfg9 "w9" [] {}).2 = some ["B"] := by
  have hB1 : _execute_steps cfg9 [stepA, stepB] [] (midSt "w9" [] [] 0 1) =
      (Except.error (PyErr.runtimeError "Step failed: B - boom"),
       midSt "w9" ["A"] ["B"] 2 5) := rfl
  have hB2 : _execute_steps cfg9 [stepA, stepB] [] (midSt "w9" ["A"] ["B"] 2 5) =
      (Except.ok (), midSt "w9" ["A", "A", "B"] ["B"] 4 9) := rfl
  have hloop : _phase_attempt_loop cfg9 phase9 [stepA, stepB] [] 2 1
        { state := some { workflow_name := "w9"
                          status := WorkflowStatus.running
                          start_time := some 0
                          end_time := none
                          current_phase := some "P"
                          steps_completed := []
                          steps_failed := []
                          outputs := [] }
          env := { procCount := 0, fileCount := 0, clock := 1 }
          statusLog := [WorkflowStatus.not_started, WorkflowStatus.running] } =
      (Except.ok (), midSt "w9" ["A", "A", "B"] ["B"] 4 9) := by
    show _phase_attempt_loop cfg9 phase9 [stepA, stepB] [] (0 + 2) 1
        (midSt "w9" [] [] 0 1) = _
    conv_lhs => rw [phase_loop_step, tryCatchE_apply, hB1]
    show _phase_attempt_loop cfg9 phase9 [stepA, stepB] [] 1 (1 + 1)
        (midSt "w9" ["A"] ["B"] 2 5) = _
    conv_lhs => rw [phase_loop_last, tryCatchE_apply, hB2]
  have hload : load_workflow cfg9 "w9" = Except.ok w9 := rfl
  have hw9i : w9.inputs = none := rfl
  have hw9p : w9.phases = some [phase9] := rfl
  have hw9sc : w9.success_criteria = none := rfl
  have hp9name : phase9.name = some "P" := rfl
  have hp9max : phase9.max_attempts = some 2 := rfl
  have hp9steps : phase9.steps = some [stepA, stepB] := rfl
  have hexec : execute cfg9 "w9" [] {} =
      (Except.ok { workflow_name := "w9"
                   status := WorkflowStatus.completed
                   start_time := some 0
                   end_time := some 9
                   current_phase := some "P"
                   steps_completed := ["A", "A", "B"]
                   steps_failed := ["B"]
                   outputs := [] },
       { state := some { workflow_name := "w9"
                         status := WorkflowStatus.completed
                         start_time := some 0
                         end_time := some 9
                         current_phase := some "P"
                         steps_completed := ["A", "A", "B"]
                         steps_failed := ["B"]
                         outputs := [] }
         env := { procCount := 4, fileCount := 0, clock := 10 }
         statusLog := [WorkflowStatus.not_started, WorkflowStatus.running,
                       WorkflowStatus.completed] }) := by
    unfold execute
    rw [hload]
    simp only [bind_apply, pure_apply, tryCatchE_apply, liftE_apply, tick_apply,
      setStateNew_apply, setStatus_apply, modifyWS_apply, getWS_apply,
      _validate_inputs, _validate_inputs_loop, _execute_phases,
      _check_success_criteria, _execute_body, _run_definition, _check_criteria_part,
      _execute_success_tail, _execute_failure_handler, hw9i, hw9p, hw9sc, hp9name, hp9max, hp9steps,
      Option.getD_none, Option.getD_some, List.nil_append, List.cons_append,
      Nat.zero_add, hloop, midSt, midWS]
  rw [hexec]
  exact ⟨rfl, rfl, rfl⟩

/-! ## Claim C6 (counterexample) -/

/-- C6 counterexample: on a timed-out shell step (configured timeout 5) the
dispatcher's failed result carries the error message
`"Command timed out after 5s"`, which is not the exact string
`"timed out after 5s"` the claim states. -/
theorem C6_counterexample :
    okResult (_execute_bash_step cfg6 step6 [] {}).1 =
      some { status := StepStatus.failed
             output := none
             error := some "Command timed out after 5s"
             exit_code := none
             duration_seconds := 0
             attempt := 1 } ∧
    ("Command timed out after 5s" : String) ≠ "timed out after 5s" :=
  ⟨rfl, by decide⟩

/-! ## Substring helper lemmas (for the timeout message) -/

theorem listStartsWith_refl (l : List Char) : listStartsWith l l = true := by
  induction l with
  | nil => rfl
  | cons c t ih => simp [listStartsWith, ih]

theorem listContainsSub_append (pre sub : List Char) :
    listContainsSub sub (pre ++ sub) = true := by
  induction pre with
  | nil =>
    cases sub with
    | nil => rfl
    | cons c t => simp [listContainsSub, listStartsWith_refl]
  | cons c t ih => simp [listContainsSub, ih]

/-! ## Claim C5 -/

/-- C5: a step whose condition evaluates false — including when the
evaluation raises, which is treated as false — is skipped entirely: running
the step list from any state is identical to running the list without that
step, so no tool is dispatched for it and its name lands in neither
`steps_completed` nor `steps_failed`. -/
theorem C5_false_or_raising_condition_skips_step (cfg : Config) (step : Step)
    (rest : List Step) (params : Params) (c : String) (st : EngineSt)
    (hc : step.condition = some c)
    (hf : cfg.evalOracle (_substitute_params c params) params = EvalOutcome.raised ∨
          cfg.evalOracle (_substitute_params c params) params = EvalOutcome.val false) :
    _execute_steps cfg (step :: rest) params st = _execute_steps cfg rest params st := by
  have hcond : _evaluate_condition cfg c params = false := by
    simp only [_evaluate_condition]
    rcases hf with h | h <;> rw [h]
  conv_lhs => rw [_execute_steps]
  simp only [hc, hcond, Bool.not_false, if_true]

/-- C5 witness: the skip theorem applied to the fixture step `C` (condition
`"flag"`) under `cfgG`, whose condition evaluator always raises. -/
theorem C5_false_or_raising_condition_skips_step_witness :
    _execute_steps cfgG [stepC] [] {} = _execute_steps cfgG [] [] {} :=
  C5_false_or_raising_condition_skips_step cfgG stepC [] [] "flag" {} rfl (Or.inl rfl)

/-! ## Claim C6 (amended theorem) -/

/-- C6 (amended): a shell-command step whose subprocess invocation exceeds
its configured timeout N yields — with no exception escaping the
dispatcher — a result with `status = failed`, `exit_code` unset (distinct
from a non-zero exit-code failure, which records the exit code and the
stderr text), and `error = "Command timed out after Ns"`, a message that
contains (mentions) `"timed out after Ns"`, though it is not equal to it
as the claim's quoted string says. -/
theorem C6_timeout_yields_failed_with_message (cfg : Config) (step : Step)
    (params : Params) (st : EngineSt)
    (h : cfg.procOracle st.env.procCount
           (_substitute_params ((step.params.getD {}).command.getD "") params) =
         ProcResult.timedOut) :
    _execute_bash_step cfg step params st =
      (Except.ok { status := StepStatus.failed
                   output := none
                   error := some ("Command timed out after " ++
                     toString ((step.params.getD {}).timeout.getD 120) ++ "s")
                   exit_code := none
                   duration_seconds := 0
                   attempt := 1 },
       { st with env := { st.env with procCount := st.env.procCount + 1 } }) ∧
    strContains
      ("Command timed out after " ++
        toString ((step.params.getD {}).timeout.getD 120) ++ "s")
      ("timed out after " ++
        toString ((step.params.getD {}).timeout.getD 120) ++ "s") = true := by
  constructor
  · unfold _execute_bash_step
    simp only [bind_apply, runProc_apply, h, pure_apply]
  · unfold strContains
    have hdata : ("Command timed out after " ++
        toString ((step.params.getD {}).timeout.getD 120) ++ "s").toList =
        "Command ".toList ++ ("timed out after " ++
          toString ((step.params.getD {}).timeout.getD 120) ++ "s").toList := by
      simp [String.toList, String.data_append, List.append_assoc]
    rw [hdata]
    exact listContainsSub_append _ _

/-- C6 witness: the amended theorem applied to the fixture `step6`
(timeout 5) under `cfg6`, whose every subprocess invocation times out. -/
theorem C6_timeout_yields_failed_with_message_witness :
    _execute_bash_step cfg6 step6 [] {} =
      (Except.ok { status := StepStatus.failed
                   output := none
                   error := some "Command timed out after 5s"
                   exit_code := none
                   duration_seconds := 0
                   attempt := 1 },
       { state := none
         env := { procCount := 1, fileCount := 0, clock := 0 }
         statusLog := [] }) ∧
    strContains "Command timed out after 5s" "timed out after 5s" = true :=
  C6_timeout_yields_failed_with_message cfg6 step6 [] {} rfl

/-! ## Claim C10 -/

/-- C10: a pattern-search (Grep) step whose subprocess invocation completes
without raising yields `status = success` REGARDLESS of the search
command's exit code (including exit code 1, grep's "no matches", or any
failure code), with the exit code recorded only in `exit_code` and `error`
left unset. -/
theorem C10_grep_success_regardless_of_exit_code (cfg : Config) (step : Step)
    (params : Params) (st : EngineSt) (rc : Int) (out err : String)
    (h : cfg.procOracle st.env.procCount
           ("grep -r '" ++
              _substitute_params ((step.params.getD {}).pattern.getD "") params ++
            "' " ++ (step.params.getD {}).path.getD ".") =
         ProcResult.completed rc out err) :
    _execute_grep_step cfg step params st =
      (Except.ok { status := StepStatus.success
                   output := some out
                   error := none
                   exit_code := some rc
                   duration_seconds := 0
                   attempt := 1 },
       { st with env := { st.env with procCount := st.env.procCount + 1 } }) := by
  unfold _execute_grep_step
  simp only [bind_apply, runProc_apply, h, pure_apply]

/-- C10 witness: the grep theorem applied to fixture `stepG` under `cfgG`,
whose every subprocess invocation exits 1 (no matches) with empty output. -/
theorem C10_grep_success_regardless_of_exit_code_witness :
    _execute_grep_step cfgG stepG [] {} =
      (Except.ok { status := StepStatus.success
                   output := some ""
                   error := none
                   exit_code := some 1
                   duration_seconds := 0
                   attempt := 1 },
       { state := none
         env := { procCount := 1, fileCount := 0, clock := 0 }
         statusLog := [] }) :=
  C10_grep_success_regardless_of_exit_code cfgG stepG [] {} 1 "" "" rfl

/-! ## Claim C7 -/

/-- C7: when execution fails because the definition is not found, the
definition is structurally invalid (both reported by `load_workflow`), or a
required input parameter is missing, the failure happens before any step
runs: `execute` raises, no subprocess is invoked and no file is opened
(the oracle cursors are unchanged), and on a fresh engine the recorded
`steps_completed` and `steps_failed` are empty. -/
theorem C7_early_failures_abort_before_any_step (cfg : Config)
    (workflow_name : String) (params : Params) (st0 : EngineSt)
    (hfresh : st0.state = none)
    (h : (∃ e, load_workflow cfg workflow_name = Except.error e) ∨
         (∃ w, load_workflow cfg workflow_name = Except.ok w ∧
            ∃ e, _validate_inputs (w.inputs.getD {}) params = Except.error e)) :
    (∃ e, (execute cfg workflow_name params st0).1 = Except.error e) ∧
    (execute cfg workflow_name params st0).2.env.procCount = st0.env.procCount ∧
    (execute cfg workflow_name params st0).2.env.fileCount = st0.env.fileCount ∧
    (∀ s, (execute cfg workflow_name params st0).2.state = some s →
       s.steps_completed = [] ∧ s.steps_failed = []) := by
  rcases h with ⟨e, he⟩ | ⟨w, hw, e, hv⟩
  · unfold execute
    rw [he]
    simp only [throwE_apply]
    refine ⟨⟨e, rfl⟩, by trivial, by trivial, ?_⟩
    intro s hs
    rw [hfresh] at hs
    exact Option.noConfusion hs
  · unfold execute
    rw [hw]
    simp only [bind_apply, pure_apply, tryCatchE_apply, liftE_apply, tick_apply,
      setStateNew_apply, setStatus_apply, modifyWS_apply, getWS_apply, throwE_apply,
      _execute_body, _run_definition, _check_criteria_part, _execute_success_tail,
      _execute_failure_handler, hv]
    refine ⟨⟨e, rfl⟩, by trivial, by trivial, ?_⟩
    intro s hs
    simp only [Option.some.injEq] at hs
    subst hs
    exact ⟨rfl, rfl⟩

/-- C7 witness: the early-abort theorem applied to `w7` (which requires the
input `p`) invoked with no parameters. -/
theorem C7_early_failures_abort_before_any_step_witness :
    (∃ e, (execute cfg7 "w7" [] {}).1 = Except.error e) ∧
    (execute cfg7 "w7" [] {}).2.env.procCount = 0 ∧
    (execute cfg7 "w7" [] {}).2.env.fileCount = 0 ∧
    (∀ s, (execute cfg7 "w7" [] {}).2.state = some s →
       s.steps_completed = [] ∧ s.steps_failed = []) :=
  C7_early_failures_abort_before_any_step cfg7 "w7" [] {} rfl
    (Or.inr ⟨w7, rfl, PyErr.valueError "Missing required parameter: p", rfl⟩)

/-! ## Claim C1 (amended theorem) -/

/-- C1 (amended): a definition declaring NEITHER `phases` nor `steps` is
rejected with `ValueError` and no step ever runs (the subprocess cursor is
unchanged and both recorded step lists are empty) — but the rejection
happens only AFTER the workflow state has entered running: the ghost
status trace shows not_started → running → failed, and the final state is
failed with an end timestamp.  A definition declaring BOTH is not rejected
at all: `phases` is executed and `steps` is ignored (the counterexample). -/
theorem C1_neither_rejected_after_running (cfg : Config)
    (workflow_name : String) (params : Params) (st0 : EngineSt) (w : Workflow)
    (hload : load_workflow cfg workflow_name = Except.ok w)
    (hph : w.phases = none) (hst : w.steps = none)
    (hv : _validate_inputs (w.inputs.getD {}) params = Except.ok ()) :
    (execute cfg workflow_name params st0).1 =
      Except.error (PyErr.valueError "Workflow must have either 'phases' or 'steps'") ∧
    (execute cfg workflow_name params st0).2.statusLog =
      st0.statusLog ++ [WorkflowStatus.not_started, WorkflowStatus.running,
                        WorkflowStatus.failed] ∧
    (∃ s, (execute cfg workflow_name params st0).2.state = some s ∧
       s.status = WorkflowStatus.failed ∧ s.steps_completed = [] ∧
       s.steps_failed = [] ∧ s.end_time.isSome = true) ∧
    (execute cfg workflow_name params st0).2.env.procCount = st0.env.procCount := by
  unfold execute
  rw [hload]
  simp only [bind_apply, pure_apply, tryCatchE_apply, liftE_apply, tick_apply,
    setStateNew_apply, setStatus_apply, modifyWS_apply, getWS_apply, throwE_apply,
    _execute_body, _run_definition, _check_criteria_part, _execute_success_tail,
    _execute_failure_handler, hv, hph, hst, List.append_assoc, List.cons_append,
    List.nil_append]
  refine ⟨by trivial, by trivial, ⟨_, rfl, rfl, rfl, rfl, rfl⟩, by trivial⟩

/-- C1 witness: the amended theorem applied to `wNeither` under
`cfgNeither`. -/
theorem C1_neither_rejected_after_running_witness :
    (execute cfgNeither "wn" [] {}).1 =
      Except.error (PyErr.valueError "Workflow must have either 'phases' or 'steps'") ∧
    (execute cfgNeither "wn" [] {}).2.statusLog =
      [WorkflowStatus.not_started, WorkflowStatus.running, WorkflowStatus.failed] ∧
    (∃ s, (execute cfgNeither "wn" [] {}).2.state = some s ∧
       s.status = WorkflowStatus.failed ∧ s.steps_completed = [] ∧
       s.steps_failed = [] ∧ s.end_time.isSome = true) ∧
    (execute cfgNeither "wn" [] {}).2.env.procCount = 0 :=
  C1_neither_rejected_after_running cfgNeither "wn" [] {} wNeither rfl rfl rfl rfl

/-! ## Claim C8: the status state machine

`Tame` computations (the whole step layer) never assign `status`; `execute`
is the only writer, and the ghost trace lets the forward-only transition
discipline be read off the final state. -/

theorem tame_pure {α : Type} (a : α) : Tame (pure a : EngineM α) :=
  fun _ => ⟨rfl, rfl⟩

theorem tame_throwE {α : Type} (e : PyErr) : Tame (throwE e : EngineM α) :=
  fun _ => ⟨rfl, rfl⟩

theorem tame_liftE {α : Type} (x : Except PyErr α) : Tame (liftE x) := by
  cases x <;> exact fun _ => ⟨rfl, rfl⟩

theorem tame_tick : Tame tick := fun _ => ⟨rfl, rfl⟩

theorem tame_runProc (cfg : Config) (command : String) :
    Tame (runProc cfg command) := fun _ => ⟨rfl, rfl⟩

theorem tame_runFile (cfg : Config) (path : String) :
    Tame (runFile cfg path) := fun _ => ⟨rfl, rfl⟩

theorem tame_modifyWS (f : WorkflowState → WorkflowState) : Tame (modifyWS f) := by
  intro st
  unfold modifyWS
  cases hs : st.state with
  | some ws => refine ⟨rfl, ?_⟩; simp [hs]
  | none => refine ⟨rfl, ?_⟩; simp [hs]

theorem tame_getWS : Tame getWS := by
  intro st
  unfold getWS
  cases hs : st.state with
  | some ws => refine ⟨rfl, ?_⟩; simp [hs]
  | none => refine ⟨rfl, ?_⟩; simp [hs]

theorem tame_bind {α β : Type} {x : EngineM α} {f : α → EngineM β}
    (hx : Tame x) (hf : ∀ a, Tame (f a)) : Tame (x >>= f) := by
  intro st
  have hx' := hx st
  simp only [bind_apply]
  cases hxs : x st with
  | mk r st1 =>
    rw [hxs] at hx'
    cases r with
    | ok a =>
      have hf' := hf a st1
      exact ⟨hf'.1.trans hx'.1, hf'.2.trans hx'.2⟩
    | error e => exact hx'

theorem tame_tryCatchE {α : Type} {x : EngineM α} {handle : PyErr → EngineM α}
    (hx : Tame x) (hh : ∀ e, Tame (handle e)) : Tame (tryCatchE x handle) := by
  intro st
  have hx' := hx st
  simp only [tryCatchE_apply]
  cases hxs : x st with
  | mk r st1 =>
    rw [hxs] at hx'
    cases r with
    | ok a => exact hx'
    | error e =>
      have hh' := hh e st1
      exact ⟨hh'.1.trans hx'.1, hh'.2.trans hx'.2⟩

theorem tame_ite {α : Type} (p : Prop) [Decidable p] {A B : EngineM α}
    (hA : Tame A) (hB : Tame B) : Tame (if p then A else B) := by
  by_cases h : p
  · simpa [h] using hA
  · simpa [h] using hB

theorem tame_handle_failure_actions (actions : List FailureAction) (err : String) :
    Tame (_handle_failure_actions actions err) :=
  tame_pure ()

theorem tame_bash (cfg : Config) (step : Step) (params : Params) :
    Tame (_execute_bash_step cfg step params) := by
  unfold _execute_bash_step
  refine tame_bind (tame_runProc _ _) ?_
  intro pr
  cases pr <;> exact tame_pure _

theorem tame_read (cfg : Config) (step : Step) (params : Params) :
    Tame (_execute_read_step cfg step params) := by
  unfold _execute_read_step
  cases step.params with
  | none => exact tame_throwE _
  | some sp =>
    refine tame_bind (tame_runFile _ _) ?_
    intro fr
    cases fr <;> exact tame_pure _

theorem tame_grep (cfg : Config) (step : Step) (params : Params) :
    Tame (_execute_grep_step cfg step params) := by
  unfold _execute_grep_step
  refine tame_bind (tame_runProc _ _) ?_
  intro pr
  cases pr <;> exact tame_pure _

theorem tame_glob (cfg : Config) (step : Step) (params : Params) :
    Tame (_execute_glob_step cfg step params) := by
  unfold _execute_glob_step
  cases step.params with
  | none => exact tame_throwE _
  | some sp =>
    refine tame_bind (tame_runProc _ _) ?_
    intro pr
    cases pr <;> exact tame_pure _

theorem tame_edit (cfg : Config) (step : Step) (params : Params) :
    Tame (_execute_edit_step cfg step params) :=
  tame_pure _

theorem tame_write (cfg : Config) (step : Step) (params : Params) :
    Tame (_execute_write_step cfg step params) := by
  unfold _execute_write_step
  refine tame_bind (tame_runFile _ _) ?_
  intro fr
  cases fr <;> exact tame_pure _

theorem tame_dispatch (cfg : Config) (step : Step) (params : Params)
    (action : Option String) : Tame (_dispatch_tool cfg step params action) := by
  unfold _dispatch_tool
  refine tame_ite _ (tame_bash cfg step params) ?_
  refine tame_ite _ (tame_read cfg step params) ?_
  refine tame_ite _ (tame_grep cfg step params) ?_
  refine tame_ite _ (tame_glob cfg step params) ?_
  refine tame_ite _ (tame_edit cfg step params) ?_
  refine tame_ite _ (tame_write cfg step params) ?_
  exact tame_pure _

theorem tame_execute_step (cfg : Config) (step : Step) (params : Params) :
    Tame (_execute_step cfg step params) := by
  unfold _execute_step
  refine tame_bind tame_tick ?_
  intro start_time
  refine tame_tryCatchE ?_ ?_
  · refine tame_bind (tame_dispatch cfg step params _) ?_
    intro result
    refine tame_bind tame_tick ?_
    intro t
    cases step.validation with
    | some rules => exact tame_bind (tame_liftE _) (fun _ => tame_pure _)
    | none => exact tame_bind (tame_pure ()) (fun _ => tame_pure _)
  · intro e
    refine tame_bind tame_tick ?_
    intro t
    exact tame_pure _

theorem tame_execute_steps (cfg : Config) (steps : List Step) (params : Params) :
    Tame (_execute_steps cfg steps params) := by
  induction steps with
  | nil => exact tame_pure ()
  | cons step rest ih =>
    show Tame (_execute_steps cfg (step :: rest) params)
    unfold _execute_steps
    refine tame_ite _ ih ?_
    refine tame_bind (tame_execute_step cfg step params) ?_
    intro result
    refine tame_ite _ ?_ ?_
    · exact tame_bind (tame_modifyWS _) (fun _ => ih)
    · exact tame_bind (tame_modifyWS _) (fun _ => tame_throwE _)

theorem tame_phase_loop (cfg : Config) (phase : Phase) (steps : List Step)
    (params : Params) :
    ∀ (remaining attempt : Nat),
      Tame (_phase_attempt_loop cfg phase steps params remaining attempt) := by
  intro remaining
  induction remaining with
  | zero => intro attempt; exact tame_pure ()
  | succ r ih =>
    intro attempt
    rw [show _phase_attempt_loop cfg phase steps params (r + 1) attempt =
      tryCatchE (_execute_steps cfg steps params)
        (fun e =>
          if r = 0 then do
            match phase.failure_actions with
            | some actions => _handle_failure_actions actions (pyErrStr e)
            | none => pure ()
            throwE e
          else _phase_attempt_loop cfg phase steps params r (attempt + 1)) from
      funext (phase_loop_succ cfg phase steps params r attempt)]
    refine tame_tryCatchE (tame_execute_steps cfg steps params) ?_
    intro e
    refine tame_ite _ ?_ (ih (attempt + 1))
    cases phase.failure_actions with
    | some actions =>
      exact tame_bind (tame_handle_failure_actions actions (pyErrStr e))
        (fun _ => tame_throwE _)
    | none => exact tame_bind (tame_pure ()) (fun _ => tame_throwE _)

theorem tame_execute_phases (cfg : Config) (phases : List Phase) (params : Params) :
    Tame (_execute_phases cfg phases params) := by
  induction phases with
  | nil => exact tame_pure ()
  | cons phase rest ih =>
    show Tame (_execute_phases cfg (phase :: rest) params)
    unfold _execute_phases
    refine tame_bind (tame_modifyWS _) ?_
    intro u
    exact tame_bind (tame_phase_loop cfg phase _ params _ 1) (fun _ => ih)


theorem check_criteria_part_eq (w : Workflow) (st : EngineSt) :
    _check_criteria_part w st = (Except.ok (), st) := by
  unfold _check_criteria_part
  cases w.success_criteria <;> rfl

theorem tame_run_definition (cfg : Config) (w : Workflow) (params : Params) :
    Tame (_run_definition cfg w params) := by
  unfold _run_definition
  cases w.phases with
  | some phases => exact tame_execute_phases cfg phases params
  | none =>
    cases w.steps with
    | some steps => exact tame_execute_steps cfg steps params
    | none => exact tame_throwE _

theorem success_tail_eq (st : EngineSt) (ws : WorkflowState)
    (hst : st.state = some ws) :
    _execute_success_tail st =
      (Except.ok { ws with status := WorkflowStatus.completed
                           end_time := some st.env.clock },
       { state := some { ws with status := WorkflowStatus.completed
                                 end_time := some st.env.clock }
         env := { st.env with clock := st.env.clock + 1 }
         statusLog := st.statusLog ++ [WorkflowStatus.completed] }) := by
  unfold _execute_success_tail
  simp only [bind_apply, setStatus_apply, tick_apply, modifyWS_apply, getWS_apply,
    hst, pure_apply]

theorem failure_handler_eq (e : PyErr) (st : EngineSt) (ws : WorkflowState)
    (hst : st.state = some ws) :
    _execute_failure_handler e st =
      (Except.error e,
       { state := some { ws with status := WorkflowStatus.failed
                                 end_time := some st.env.clock }
         env := { st.env with clock := st.env.clock + 1 }
         statusLog := st.statusLog ++ [WorkflowStatus.failed] }) := by
  unfold _execute_failure_handler
  simp only [bind_apply, setStatus_apply, tick_apply, modifyWS_apply, throwE_apply,
    hst, pure_apply]

theorem body_spec (cfg : Config) (w : Workflow) (params : Params)
    (st1 : EngineSt) (ws1 : WorkflowState) (hst1 : st1.state = some ws1) :
    (∃ ws st2, _execute_body cfg w params st1 = (Except.ok ws, st2) ∧
       st2.state = some ws ∧ ws.status = WorkflowStatus.completed ∧
       ws.end_time.isSome = true ∧
       st2.statusLog = st1.statusLog ++ [WorkflowStatus.completed]) ∨
    (∃ e st2, _execute_body cfg w params st1 = (Except.error e, st2) ∧
       st2.statusLog = st1.statusLog ∧ st2.state.isSome = true) := by
  cases hV : _validate_inputs (w.inputs.getD {}) params with
  | error e =>
    have hbody : _execute_body cfg w params st1 = (Except.error e, st1) := by
      unfold _execute_body
      simp only [bind_apply, liftE_apply, hV]
    refine Or.inr ⟨e, st1, hbody, rfl, ?_⟩
    simp [hst1]
  | ok u =>
    cases hR : _run_definition cfg w params st1 with
    | mk r2 st2 =>
      have hT := tame_run_definition cfg w params st1
      rw [hR] at hT
      cases r2 with
      | error e =>
        have hbody : _execute_body cfg w params st1 = (Except.error e, st2) := by
          unfold _execute_body
          simp only [bind_apply, liftE_apply, hV, hR]
        refine Or.inr ⟨e, st2, hbody, hT.1, ?_⟩
        rw [hT.2]
        simp [hst1]
      | ok u2 =>
        have hsome2 : st2.state.isSome = true := by
          rw [hT.2]
          simp [hst1]
        rcases h2 : st2.state with _ | ws2
        · rw [h2] at hsome2
          exact Bool.noConfusion hsome2
        · have hbody : _execute_body cfg w params st1 = _execute_success_tail st2 := by
            unfold _execute_body
            simp only [bind_apply, liftE_apply, hV, hR, check_criteria_part_eq]
          rw [success_tail_eq st2 ws2 h2] at hbody
          refine Or.inl ⟨_, _, hbody, rfl, rfl, rfl, ?_⟩
          rw [hT.1]

theorem try_spec (cfg : Config) (w : Workflow) (params : Params)
    (st1 : EngineSt) (ws1 : WorkflowState) (hst1 : st1.state = some ws1) :
    (∃ ws, (tryCatchE (_execute_body cfg w params)
        (fun e => _execute_failure_handler e) st1).1 = Except.ok ws ∧
       (tryCatchE (_execute_body cfg w params)
        (fun e => _execute_failure_handler e) st1).2.state = some ws ∧
       ws.status = WorkflowStatus.completed ∧ ws.end_time.isSome = true ∧
       (tryCatchE (_execute_body cfg w params)
        (fun e => _execute_failure_handler e) st1).2.statusLog =
         st1.statusLog ++ [WorkflowStatus.completed]) ∨
    (∃ e, (tryCatchE (_execute_body cfg w params)
        (fun e => _execute_failure_handler e) st1).1 = Except.error e ∧
       ∃ ws, (tryCatchE (_execute_body cfg w params)
        (fun e => _execute_failure_handler e) st1).2.state = some ws ∧
       ws.status = WorkflowStatus.failed ∧ ws.end_time.isSome = true ∧
       (tryCatchE (_execute_body cfg w params)
        (fun e => _execute_failure_handler e) st1).2.statusLog =
         st1.statusLog ++ [WorkflowStatus.failed]) := by
  rcases body_spec cfg w params st1 ws1 hst1 with
    ⟨ws, st2, hb, h1, h2, h3, h4⟩ | ⟨e, st2, hb, hlog, hsome⟩
  · have heq : tryCatchE (_execute_body cfg w params)
        (fun e => _execute_failure_handler e) st1 = (Except.ok ws, st2) := by
      simp only [tryCatchE_apply, hb]
    rw [heq]
    exact Or.inl ⟨ws, rfl, h1, h2, h3, h4⟩
  · rcases h2' : st2.state with _ | ws2
    · rw [h2'] at hsome
      exact Bool.noConfusion hsome
    · have heq : tryCatchE (_execute_body cfg w params)
          (fun e => _execute_failure_handler e) st1 =
          (Except.error e,
           { state := some { ws2 with status := WorkflowStatus.failed
                                      end_time := some st2.env.clock }
             env := { st2.env with clock := st2.env.clock + 1 }
             statusLog := st2.statusLog ++ [WorkflowStatus.failed] }) := by
        simp only [tryCatchE_apply, hb]
        exact failure_handler_eq e st2 ws2 h2'
      rw [heq]
      refine Or.inr ⟨e, rfl, ⟨_, rfl, rfl, rfl, ?_⟩⟩
      rw [hlog]

/-- C8: in every execution the status trace is forward-only.  Either the
load fails and the state is untouched (never enters running), or the
ghost status trace extends by exactly `not_started → running → completed`
(when `execute` returns, with the returned state carrying an end
timestamp) or by exactly `not_started → running → failed` (when `execute`
re-raises, with the final state failed and carrying an end timestamp).
In particular `running` is never re-entered after a terminal status and
`execute` never ends with the state left `running`. -/
theorem C8_status_transitions_forward_only (cfg : Config) (workflow_name : String) (params : Params)
    (st0 : EngineSt) :
    (∃ ws, (execute cfg workflow_name params st0).1 = Except.ok ws ∧
       (execute cfg workflow_name params st0).2.state = some ws ∧
       ws.status = WorkflowStatus.completed ∧ ws.end_time.isSome = true ∧
       (execute cfg workflow_name params st0).2.statusLog =
         st0.statusLog ++ [WorkflowStatus.not_started, WorkflowStatus.running,
                           WorkflowStatus.completed]) ∨
    (∃ e, (execute cfg workflow_name params st0).1 = Except.error e ∧
       ((execute cfg workflow_name params st0).2 = st0 ∨
        (∃ ws, (execute cfg workflow_name params st0).2.state = some ws ∧
           ws.status = WorkflowStatus.failed ∧ ws.end_time.isSome = true ∧
           (execute cfg workflow_name params st0).2.statusLog =
             st0.statusLog ++ [WorkflowStatus.not_started, WorkflowStatus.running,
                               WorkflowStatus.failed]))) := by
  cases hload : load_workflow cfg workflow_name with
  | error e =>
    have hexe : execute cfg workflow_name params st0 = (Except.error e, st0) := by
      unfold execute
      simp only [hload, throwE_apply]
    rw [hexe]
    exact Or.inr ⟨e, rfl, Or.inl rfl⟩
  | ok w =>
    have hexe : execute cfg workflow_name params st0 =
        tryCatchE (_execute_body cfg w params)
          (fun e => _execute_failure_handler e)
          { state := some { workflow_name := workflow_name
                            status := WorkflowStatus.running
                            start_time := some st0.env.clock
                            end_time := none
                            current_phase := none
                            steps_completed := []
                            steps_failed := []
                            outputs := [] }
            env := { st0.env with clock := st0.env.clock + 1 }
            statusLog := st0.statusLog ++ [WorkflowStatus.not_started,
                                           WorkflowStatus.running] } := by
      unfold execute
      simp only [hload, bind_apply, setStateNew_apply, setStatus_apply, tick_apply,
        modifyWS_apply, List.append_assoc, List.cons_append, List.nil_append]
    rw [hexe]
    rcases try_spec cfg w params
        { state := some { workflow_name := workflow_name
                          status := WorkflowStatus.running
                          start_time := some st0.env.clock
                          end_time := none
                          current_phase := none
                          steps_completed := []
                          steps_failed := []
                          outputs := [] }
          env := { st0.env with clock := st0.env.clock + 1 }
          statusLog := st0.statusLog ++ [WorkflowStatus.not_started,
                                         WorkflowStatus.running] }
        { workflow_name := workflow_name
          status := WorkflowStatus.running
          start_time := some st0.env.clock
          end_time := none
          current_phase := none
          steps_completed := []
          steps_failed := []
          outputs := [] } rfl with
      ⟨ws, h1, h2, h3, h4, h5⟩ | ⟨e, h1, ws, h2, h3, h4, h5⟩
    · refine Or.inl ⟨ws, h1, h2, h3, h4, ?_⟩
      rw [h5]
      simp [List.append_assoc]
    · refine Or.inr ⟨e, h1, Or.inr ⟨ws, h2, h3, h4, ?_⟩⟩
      rw [h5]
      simp [List.append_assoc]
